import Mathlib

/-!
Verification of the usage/carbon aggregation core of the Ada carbon-monitoring
dashboard.

The development shallowly embeds the Python sources:

* `source/main/models.py` — the `Workspace` accumulator (`record_usage`,
  `_ci_to_kg`): Python floats are modelled as exact rationals (`ℚ`),
  Python ints as `ℤ`.
* `source/main/views.py` — the cache/TTL read path (`project_usage_api`,
  `_cache_ttl_seconds`, `_spec_hash`, `_bin_meta`), the synthetic series
  generator (`_make_series`, `_util_profile_day`, `_seeded_rng`) and the
  Prometheus binning pipeline (`_bin_setup`, `_prometheus_usage_series`).
  Energy values flow through `math.sin`, so they are modelled in `ℝ`;
  timestamps and cache ages are exact (`ℤ`/`ℚ`).

Python's seeded Mersenne-Twister (`random.Random(seed)`) is abstracted as a
parameter `mt : String → ℕ → ℝ`, where `mt seed n` is the n-th `random()`
draw of `random.Random(seed)`; `random.uniform(a, b) = a + (b-a)*random()`.
Python's `datetime.fromtimestamp(ts, tz=utc).month` is embedded concretely
(proleptic-Gregorian month extraction, validated against CPython).
`hashlib.sha1` is implemented bit-for-bit over the UTF-8 bytes of the
payload string.

Integer `/` and `%` below are Lean's Euclidean operations, which agree with
Python's floor-division `//` and `%` for the positive literal divisors used
throughout.
-/

namespace AdaCarbon

/-! ### Workspace accumulator (`source/main/models.py`, `Workspace`)

`started_at` and `last_sampled_at` are wall-clock bookkeeping
(`timezone.now()`) and are outside the embedding; no claim depends on them.
-/

structure Workspace where
  runtime_seconds : ℤ
  total_kwh : ℚ
  total_kg : ℚ
  idle_kwh : ℚ
  idle_kg : ℚ
  avg_ci_g_per_kwh : Option ℚ
  last_ci_g_per_kwh : Option ℚ
  deriving Repr, DecidableEq

/-- A `Workspace` row as created with the model's field defaults. -/
def freshWorkspace : Workspace :=
  { runtime_seconds := 0, total_kwh := 0, total_kg := 0, idle_kwh := 0, idle_kg := 0
    avg_ci_g_per_kwh := none, last_ci_g_per_kwh := none }

/-- `Workspace._ci_to_kg`: `if not ci: return 0.0; return max(0.0, kwh*ci/1000)`.
Python truthiness makes both `None` and `0.0` take the first branch. -/
def ciToKg (kwh : ℚ) (ci : Option ℚ) : ℚ :=
  match ci with
  | none => 0
  | some c => if c = 0 then 0 else max 0 (kwh * c / 1000)

/-- The epsilon `1e-12` guarding the running-average denominator. -/
def ciEps : ℚ := 1 / 10 ^ 12

/-- `Workspace.record_usage`.  The update order follows the source: inputs are
clamped, `total_kwh` is incremented first, and the running-average denominator
is `max(1e-12, total_kwh)` computed *after* the increment.  The
`(self.avg_ci_g_per_kwh or 0.0)` in the source is numerically the identity on
the non-`None` value it is applied to. -/
def recordUsage (w : Workspace) (duration_s : ℤ) (energy_kwh : ℚ)
    (ci_g_per_kwh : Option ℚ) (idle : Bool) : Workspace :=
  let d := max 0 duration_s
  let e := max 0 energy_kwh
  let runtime := w.runtime_seconds + (if idle then 0 else d)
  let total := w.total_kwh + e
  let idleK := if idle then w.idle_kwh + e else w.idle_kwh
  match ci_g_per_kwh with
  | none =>
      { w with runtime_seconds := runtime, total_kwh := total, idle_kwh := idleK }
  | some c =>
      let kg := ciToKg e (some c)
      let prev := max ciEps total
      let avg :=
        match w.avg_ci_g_per_kwh with
        | none => c
        | some a => ((prev - e) * a + e * c) / prev
      { runtime_seconds := runtime, total_kwh := total, idle_kwh := idleK
        total_kg := w.total_kg + kg
        idle_kg := if idle then w.idle_kg + kg else w.idle_kg
        avg_ci_g_per_kwh := some avg
        last_ci_g_per_kwh := some c }

/-- One polling sample fed to `record_usage` (carbon intensity supplied). -/
structure Sample where
  d : ℤ
  e : ℚ
  c : ℚ
  idle : Bool
  deriving Repr, DecidableEq

/-- Fold a sequence of `record_usage` calls over a workspace. -/
def runSamples (w : Workspace) (l : List Sample) : Workspace :=
  l.foldl (fun w s => recordUsage w s.d s.e (some s.c) s.idle) w

/-- Total energy of a sample list. -/
def sumE (l : List Sample) : ℚ := (l.map fun s => s.e).sum

/-- Energy-weighted carbon-intensity mass of a sample list. -/
def sumEC (l : List Sample) : ℚ := (l.map fun s => s.e * s.c).sum

lemma recordUsage_total (w : Workspace) (d : ℤ) (e : ℚ) (ci : Option ℚ) (idle : Bool) :
    (recordUsage w d e ci idle).total_kwh = w.total_kwh + max 0 e := by
  unfold recordUsage
  cases ci <;> rfl

lemma recordUsage_avg_none (w : Workspace) (d : ℤ) (e c : ℚ) (idle : Bool)
    (hw : w.avg_ci_g_per_kwh = none) :
    (recordUsage w d e (some c) idle).avg_ci_g_per_kwh = some c := by
  unfold recordUsage
  simp [hw]

lemma recordUsage_avg_some (w : Workspace) (d : ℤ) (e c a T : ℚ) (idle : Bool)
    (hw : w.avg_ci_g_per_kwh = some a) (hT : w.total_kwh = T)
    (he : 0 < e) (hTe : ciEps ≤ T) :
    (recordUsage w d e (some c) idle).avg_ci_g_per_kwh
      = some ((T * a + e * c) / (T + e)) := by
  have hprev : max ciEps (T + e) = T + e := max_eq_right (by linarith)
  unfold recordUsage
  simp only [hw, hT, max_eq_right he.le, Option.some.injEq, hprev]
  congr 1
  ring

/-- Folding positive-energy, CI-carrying samples from a state whose average is
already the weighted mean `S / T` keeps the average the weighted mean. -/
lemma runSamples_avg (l : List Sample) :
    ∀ (w : Workspace) (T S : ℚ), w.total_kwh = T → ciEps ≤ T →
      w.avg_ci_g_per_kwh = some (S / T) → (∀ x ∈ l, 0 < x.e) →
      (runSamples w l).avg_ci_g_per_kwh = some ((S + sumEC l) / (T + sumE l)) ∧
      (runSamples w l).total_kwh = T + sumE l := by
  induction l with
  | nil =>
    intro w T S hT hTe havg _
    simp [runSamples, sumEC, sumE, hT, havg]
  | cons s l ih =>
    intro w T S hT hTe havg hpos
    have he : 0 < s.e := hpos s (List.mem_cons_self s l)
    have hTpos : 0 < T := lt_of_lt_of_le (by norm_num [ciEps]) hTe
    have hrun : runSamples w (s :: l)
        = runSamples (recordUsage w s.d s.e (some s.c) s.idle) l := by
      simp [runSamples]
    have htot : (recordUsage w s.d s.e (some s.c) s.idle).total_kwh = T + s.e := by
      rw [recordUsage_total, hT, max_eq_right he.le]
    have havg' : (recordUsage w s.d s.e (some s.c) s.idle).avg_ci_g_per_kwh
        = some ((S + s.e * s.c) / (T + s.e)) := by
      rw [recordUsage_avg_some w s.d s.e s.c (S / T) T s.idle havg hT he hTe]
      rw [mul_div_cancel₀ S hTpos.ne']
    have := ih (recordUsage w s.d s.e (some s.c) s.idle) (T + s.e) (S + s.e * s.c)
      htot (le_trans hTe (by linarith)) havg' (fun x hx => hpos x (List.mem_cons_of_mem s hx))
    have hEC : sumEC (s :: l) = s.e * s.c + sumEC l := by simp [sumEC]
    have hE : sumE (s :: l) = s.e + sumE l := by simp [sumE]
    rw [hrun]
    refine ⟨?_, ?_⟩
    · rw [this.1, hEC, hE]
      ring_nf
    · rw [this.2, hE]
      ring

/-- **C1.** For every sequence of `record_usage` calls in which each call
supplies a carbon intensity and a positive energy (the first at least the
`1e-12` float guard), the resulting `avg_ci_g_per_kwh` equals the
energy-weighted mean `Σ(ei*ci) / Σei`; and the concrete two-call scenario from
a fresh accumulator yields `total_kwh = 2.0`, `idle_kwh = 1.0`,
`total_kg = 0.3` and `avg_ci_g_per_kwh = 150`. -/
theorem recordUsage_energy_weighted_avg (s0 : Sample) (rest : List Sample)
    (hpos : ∀ x ∈ s0 :: rest, 0 < x.e) (h0 : ciEps ≤ s0.e) :
    (runSamples freshWorkspace (s0 :: rest)).avg_ci_g_per_kwh
        = some (sumEC (s0 :: rest) / sumE (s0 :: rest)) ∧
    ((runSamples freshWorkspace
        [⟨3600, 1, 200, false⟩, ⟨0, 1, 100, true⟩]).total_kwh = 2 ∧
     (runSamples freshWorkspace
        [⟨3600, 1, 200, false⟩, ⟨0, 1, 100, true⟩]).idle_kwh = 1 ∧
     (runSamples freshWorkspace
        [⟨3600, 1, 200, false⟩, ⟨0, 1, 100, true⟩]).total_kg = 3/10 ∧
     (runSamples freshWorkspace
        [⟨3600, 1, 200, false⟩, ⟨0, 1, 100, true⟩]).avg_ci_g_per_kwh = some 150) := by
  constructor
  · have he0 : 0 < s0.e := hpos s0 (List.mem_cons_self s0 rest)
    have hrun : runSamples freshWorkspace (s0 :: rest)
        = runSamples (recordUsage freshWorkspace s0.d s0.e (some s0.c) s0.idle) rest := by
      simp [runSamples]
    have htot : (recordUsage freshWorkspace s0.d s0.e (some s0.c) s0.idle).total_kwh
        = s0.e := by
      rw [recordUsage_total, max_eq_right he0.le]
      simp [freshWorkspace]
    have havg : (recordUsage freshWorkspace s0.d s0.e (some s0.c) s0.idle).avg_ci_g_per_kwh
        = some ((s0.e * s0.c) / s0.e) := by
      rw [recordUsage_avg_none freshWorkspace s0.d s0.e s0.c s0.idle rfl]
      rw [mul_div_cancel_left₀ s0.c he0.ne']
    have := runSamples_avg rest (recordUsage freshWorkspace s0.d s0.e (some s0.c) s0.idle)
      s0.e (s0.e * s0.c) htot h0 havg
      (fun x hx => hpos x (List.mem_cons_of_mem s0 hx))
    have hEC : sumEC (s0 :: rest) = s0.e * s0.c + sumEC rest := by simp [sumEC]
    have hE : sumE (s0 :: rest) = s0.e + sumE rest := by simp [sumE]
    rw [hrun, this.1, hEC, hE]
  · refine ⟨?_, ?_, ?_, ?_⟩ <;>
      norm_num [runSamples, recordUsage, ciToKg, freshWorkspace, ciEps, max_def]

/-- Witness for C1 at the concrete two-sample scenario. -/
theorem recordUsage_energy_weighted_avg_witness :
    (∀ x ∈ ([⟨3600, 1, 200, false⟩, ⟨0, 1, 100, true⟩] : List Sample), 0 < x.e) ∧
    ciEps ≤ (Sample.mk 3600 1 200 false).e ∧
    (runSamples freshWorkspace [⟨3600, 1, 200, false⟩, ⟨0, 1, 100, true⟩]).avg_ci_g_per_kwh
      = some (sumEC [⟨3600, 1, 200, false⟩, ⟨0, 1, 100, true⟩]
              / sumE [⟨3600, 1, 200, false⟩, ⟨0, 1, 100, true⟩]) ∧
    (runSamples freshWorkspace [⟨3600, 1, 200, false⟩, ⟨0, 1, 100, true⟩]).total_kwh = 2 := by
  have h1 : ∀ x ∈ ([⟨3600, 1, 200, false⟩, ⟨0, 1, 100, true⟩] : List Sample), 0 < x.e := by
    decide
  have h2 : ciEps ≤ (Sample.mk 3600 1 200 false).e := by
    norm_num [ciEps]
  have := recordUsage_energy_weighted_avg ⟨3600, 1, 200, false⟩ [⟨0, 1, 100, true⟩] h1 h2
  exact ⟨h1, h2, this.1, this.2.1⟩

lemma ciToKg_nonneg (kwh : ℚ) (ci : Option ℚ) : 0 ≤ ciToKg kwh ci := by
  unfold ciToKg
  cases ci with
  | none => exact le_refl 0
  | some c =>
    by_cases hc : c = 0
    · simp [hc]
    · simp [hc]

/-- **C9.** `record_usage` clamps its inputs: for every state and every input
— including negative `duration_s` or `energy_kwh` — the values added are
`max 0 duration_s` and `max 0 energy_kwh`, the kg conversion is clamped at 0,
and `runtime_seconds`, `total_kwh`, `idle_kwh`, `total_kg`, `idle_kg` are
monotonically non-decreasing across the call. -/
theorem recordUsage_clamps_and_monotone (w : Workspace) (d : ℤ) (e : ℚ)
    (ci : Option ℚ) (idle : Bool) :
    (recordUsage w d e ci idle).runtime_seconds
        = w.runtime_seconds + (if idle then 0 else max 0 d) ∧
    (recordUsage w d e ci idle).total_kwh = w.total_kwh + max 0 e ∧
    (recordUsage w d e ci idle).idle_kwh
        = (if idle then w.idle_kwh + max 0 e else w.idle_kwh) ∧
    0 ≤ ciToKg (max 0 e) ci ∧
    w.runtime_seconds ≤ (recordUsage w d e ci idle).runtime_seconds ∧
    w.total_kwh ≤ (recordUsage w d e ci idle).total_kwh ∧
    w.idle_kwh ≤ (recordUsage w d e ci idle).idle_kwh ∧
    w.total_kg ≤ (recordUsage w d e ci idle).total_kg ∧
    w.idle_kg ≤ (recordUsage w d e ci idle).idle_kg := by
  have hkg := ciToKg_nonneg (max 0 e) ci
  have hd : (0:ℤ) ≤ max 0 d := le_max_left 0 d
  have he : (0:ℚ) ≤ max 0 e := le_max_left 0 e
  unfold recordUsage
  cases ci with
  | none =>
    cases idle <;> simp_all
  | some c =>
    have hkg' := ciToKg_nonneg (max 0 e) (some c)
    cases idle <;> simp_all

/-! ### Power model and spec hash (`source/main/views.py`)

`DEFAULT_TDP_SPEC` holds Python ints; query-string overrides are coerced with
`float(...)`.  Since `_spec_hash` interpolates the values into an f-string,
the *textual* representation matters, so spec values are modelled as tagged
Python numbers (`PyVal`) with their `str()` rendering, alongside the numeric
view (`TdpSpec` over `ℚ`) that the series computations use. -/

/-- A Python number as stored in a spec dict: an `int` or a `float`. -/
inductive PyVal where
  | int (n : ℤ)
  | float (q : ℚ)
  deriving Repr, DecidableEq

/-- `str()` of a Python float.  Every float stored in the modelled specs is
integral, where CPython prints `N.0`; the non-integral fallback is a
placeholder never exercised by the theorems. -/
def pyFloatRepr (q : ℚ) : String :=
  if q.den = 1 then toString q.num ++ ".0" else toString q.num ++ "/" ++ toString q.den

/-- `str()` of a spec value, as interpolated by the `_spec_hash` f-string. -/
def PyVal.str : PyVal → String
  | .int n => toString n
  | .float q => pyFloatRepr q

/-- Numeric value of a spec entry. -/
def PyVal.toRat : PyVal → ℚ
  | .int n => (n : ℚ)
  | .float q => q

/-- The spec dict passed around by `project_usage_api` (fixed key set). -/
structure PySpec where
  cpu_count : PyVal
  cpu_tdp_w : PyVal
  gpu_count : PyVal
  gpu_tdp_w : PyVal
  ram_w : PyVal
  other_w : PyVal
  deriving Repr, DecidableEq

/-- The numeric view of a hardware spec (Python floats as exact rationals). -/
structure TdpSpec where
  cpu_count : ℚ
  cpu_tdp_w : ℚ
  gpu_count : ℚ
  gpu_tdp_w : ℚ
  ram_w : ℚ
  other_w : ℚ
  deriving Repr, DecidableEq

def PySpec.toNumeric (s : PySpec) : TdpSpec :=
  { cpu_count := s.cpu_count.toRat, cpu_tdp_w := s.cpu_tdp_w.toRat
    gpu_count := s.gpu_count.toRat, gpu_tdp_w := s.gpu_tdp_w.toRat
    ram_w := s.ram_w.toRat, other_w := s.other_w.toRat }

/-- `DEFAULT_TDP_SPEC` (views.py): all values are Python ints. -/
def defaultTdpSpec : PySpec :=
  { cpu_count := .int 12, cpu_tdp_w := .int 12, gpu_count := .int 1
    gpu_tdp_w := .int 250, ram_w := .int 20, other_w := .int 30 }

/-- The query-string override loop in `project_usage_api`: a parsed value is
stored as `float(request.GET.get(key))`, i.e. always as a Python float. -/
def PySpec.overrideFloat (s : PySpec) (key : String) (v : ℚ) : PySpec :=
  if key = "cpu_count" then { s with cpu_count := .float v }
  else if key = "cpu_tdp_w" then { s with cpu_tdp_w := .float v }
  else if key = "gpu_count" then { s with gpu_count := .float v }
  else if key = "gpu_tdp_w" then { s with gpu_tdp_w := .float v }
  else if key = "ram_w" then { s with ram_w := .float v }
  else if key = "other_w" then { s with other_w := .float v }
  else s

/-- The payload string built by `_spec_hash` before digesting. -/
def specPayload (s : PySpec) : String :=
  "cpu_count=" ++ s.cpu_count.str ++ ";cpu_tdp_w=" ++ s.cpu_tdp_w.str ++
  ";gpu_count=" ++ s.gpu_count.str ++ ";gpu_tdp_w=" ++ s.gpu_tdp_w.str ++
  ";ram_w=" ++ s.ram_w.str ++ ";other_w=" ++ s.other_w.str

/-- `full_watts` as computed throughout views.py:
`cpu_count*cpu_tdp_w + gpu_count*gpu_tdp_w + ram_w + other_w`. -/
def fullWatts (s : TdpSpec) : ℚ :=
  s.cpu_count * s.cpu_tdp_w + s.gpu_count * s.gpu_tdp_w + s.ram_w + s.other_w

/-! #### `hashlib.sha1`, bit for bit

32-bit words are naturals kept below `2^32`; `bitZip` is the bitwise zip with
an explicit 32-step fuel so that every operation reduces structurally.
Rotation is expressed arithmetically (the shifted parts do not overlap).
Validated against CPython's `hashlib` on the payloads used below. -/

def bitZip (f : Bool → Bool → Bool) : ℕ → ℕ → ℕ → ℕ
  | 0, _, _ => 0
  | n+1, a, b => (cond (f (a % 2 == 1) (b % 2 == 1)) 1 0) + 2 * bitZip f n (a / 2) (b / 2)

def xor32 (a b : ℕ) : ℕ := bitZip Bool.xor 32 a b

def and32 (a b : ℕ) : ℕ := bitZip Bool.and 32 a b

def or32 (a b : ℕ) : ℕ := bitZip Bool.or 32 a b

def not32 (a : ℕ) : ℕ := 4294967295 - a % 4294967296

def rotl (n x : ℕ) : ℕ :=
  (x % 4294967296) * 2^n % 4294967296 + (x % 4294967296) / 2^(32-n)

/-- Append the `0x80` marker, zero padding and the 64-bit big-endian bit
length, reaching a multiple of 64 bytes. -/
def sha1Pad (msg : List ℕ) : List ℕ :=
  let len := msg.length
  let bl := 8 * len
  msg ++ [128] ++ List.replicate ((119 - len % 64) % 64) 0 ++
    [bl / 2^56 % 256, bl / 2^48 % 256, bl / 2^40 % 256, bl / 2^32 % 256,
     bl / 2^24 % 256, bl / 2^16 % 256, bl / 2^8 % 256, bl % 256]

/-- Big-endian 4-byte grouping into 32-bit words. -/
def bytesToWords : List ℕ → List ℕ
  | b0 :: b1 :: b2 :: b3 :: rest =>
      (((b0 * 256 + b1) * 256 + b2) * 256 + b3) :: bytesToWords rest
  | _ => []

/-- Extend a 16-word block to the 80-word message schedule. -/
def sha1Extend (w : Array ℕ) : Array ℕ :=
  (List.range 64).foldl (fun w i =>
    w.push (rotl 1 (xor32 (xor32 (w.getD (i+13) 0) (w.getD (i+8) 0))
                          (xor32 (w.getD (i+2) 0) (w.getD i 0))))) w

/-- One SHA-1 block compression (state is `(h0, h1, h2, h3, h4)`). -/
def sha1Compress (h : ℕ × ℕ × ℕ × ℕ × ℕ) (block : List ℕ) : ℕ × ℕ × ℕ × ℕ × ℕ :=
  let w := sha1Extend block.toArray
  let st := (List.range 80).foldl (fun st i =>
    let a := st.1
    let b := st.2.1
    let c := st.2.2.1
    let d := st.2.2.2.1
    let e := st.2.2.2.2
    let f := if i < 20 then or32 (and32 b c) (and32 (not32 b) d)
             else if i < 40 then xor32 (xor32 b c) d
             else if i < 60 then or32 (or32 (and32 b c) (and32 b d)) (and32 c d)
             else xor32 (xor32 b c) d
    let k := if i < 20 then 1518500249 else if i < 40 then 1859775393
             else if i < 60 then 2400959708 else 3395469782
    let temp := (rotl 5 a + f + e + k + w.getD i 0) % 4294967296
    (temp, a, rotl 30 b, c, d)) h
  ((h.1 + st.1) % 4294967296, (h.2.1 + st.2.1) % 4294967296,
   (h.2.2.1 + st.2.2.1) % 4294967296, (h.2.2.2.1 + st.2.2.2.1) % 4294967296,
   (h.2.2.2.2 + st.2.2.2.2) % 4294967296)

/-- Fold the compression over consecutive 16-word blocks (fuel-driven so the
recursion is structural). -/
def sha1Blocks : ℕ → (ℕ × ℕ × ℕ × ℕ × ℕ) → List ℕ → ℕ × ℕ × ℕ × ℕ × ℕ
  | 0, h, _ => h
  | _, h, [] => h
  | fuel+1, h, ws => sha1Blocks fuel (sha1Compress h (ws.take 16)) (ws.drop 16)

def hexDigit (n : ℕ) : Char := Char.ofNat (if n < 10 then 48 + n else 87 + n)

def toHex8 (w : ℕ) : String :=
  String.mk ((List.range 8).map fun i => hexDigit (w / 2^(4*(7-i)) % 16))

/-- `hashlib.sha1(s.encode("utf-8")).hexdigest()` for ASCII strings. -/
def sha1Hex (s : String) : String :=
  let msg := s.toList.map Char.toNat
  let ws := bytesToWords (sha1Pad msg)
  let h := sha1Blocks ws.length
    (1732584193, 4023233417, 2562383102, 271733878, 3285377520) ws
  toHex8 h.1 ++ toHex8 h.2.1 ++ toHex8 h.2.2.1 ++ toHex8 h.2.2.2.1 ++ toHex8 h.2.2.2.2

/-- `_spec_hash`: SHA-1 hex digest of the canonical-order payload string. -/
def specHash (s : PySpec) : String := sha1Hex (specPayload s)

set_option maxRecDepth 40000 in
set_option maxHeartbeats 12000000 in
lemma sha1_payload_default :
    sha1Hex "cpu_count=12;cpu_tdp_w=12;gpu_count=1;gpu_tdp_w=250;ram_w=20;other_w=30"
      = "c6c269c57698187e3456acde3aa6ddbb47b781a0" := by
  decide

set_option maxRecDepth 40000 in
set_option maxHeartbeats 12000000 in
lemma sha1_payload_floatOverride :
    sha1Hex "cpu_count=12.0;cpu_tdp_w=12;gpu_count=1;gpu_tdp_w=250;ram_w=20;other_w=30"
      = "57aed5c2c361540ff162d50ff86b06f14e6959de" := by
  decide

set_option maxRecDepth 40000 in
set_option maxHeartbeats 4000000 in
/-- **C10.** The spec hash is sensitive to the textual, not the numeric,
representation of each field: overriding `cpu_count` with its own default
value `12` stores the Python float `12.0`, leaving the numeric spec unchanged
but changing the `_spec_hash` payload and hence the SHA-1 cache key. -/
theorem specHash_textual_not_numeric :
    (defaultTdpSpec.overrideFloat "cpu_count" 12).toNumeric = defaultTdpSpec.toNumeric ∧
    specPayload (defaultTdpSpec.overrideFloat "cpu_count" 12) ≠ specPayload defaultTdpSpec ∧
    specHash (defaultTdpSpec.overrideFloat "cpu_count" 12) ≠ specHash defaultTdpSpec := by
  have hp1 : specPayload defaultTdpSpec
      = "cpu_count=12;cpu_tdp_w=12;gpu_count=1;gpu_tdp_w=250;ram_w=20;other_w=30" := by
    decide
  have hp2 : specPayload (defaultTdpSpec.overrideFloat "cpu_count" 12)
      = "cpu_count=12.0;cpu_tdp_w=12;gpu_count=1;gpu_tdp_w=250;ram_w=20;other_w=30" := by
    decide
  refine ⟨by decide, by decide, ?_⟩
  show sha1Hex (specPayload _) ≠ sha1Hex (specPayload _)
  rw [hp1, hp2, sha1_payload_default, sha1_payload_floatOverride]
  decide

/-! ### Synthetic series generator (`_make_series`, `_util_profile_day`)

`_seeded_rng("project-usage")` constructs a fresh `random.Random` per call;
its draw sequence is `mt "project-usage"`, and draw `i` of a loop is taken at
stream position `i`.  `round(x, n)` is modelled as ideal half-even decimal
rounding. -/

/-- Python's banker's rounding to an integer. -/
noncomputable def roundHalfEven (y : ℝ) : ℤ :=
  if Int.fract y < 1/2 then ⌊y⌋
  else if 1/2 < Int.fract y then ⌊y⌋ + 1
  else if ⌊y⌋ % 2 = 0 then ⌊y⌋ else ⌊y⌋ + 1

/-- `round(x, ndigits)`. -/
noncomputable def pyRound (ndigits : ℕ) (x : ℝ) : ℝ :=
  (roundHalfEven (x * 10^ndigits) : ℝ) / 10^ndigits

/-- `random.uniform(lo, hi)` applied to one `random()` draw `u`. -/
def uniform (lo hi u : ℝ) : ℝ := lo + (hi - lo) * u

/-- `_util_profile_day`: `max(0.05, min(0.95, 0.25 + 0.45*sin((hour-8)*pi/12)))`. -/
noncomputable def utilProfileDay (hour : ℝ) : ℝ :=
  max 0.05 (min 0.95 (0.25 + 0.45 * Real.sin ((hour - 8) * Real.pi / 12)))

/-- `str(h).zfill(2)` for `h < 100`. -/
def zfill2 (h : ℕ) : String := (if h < 10 then "0" else "") ++ toString h

def monthNames : List String :=
  ["Jan", "Feb", "Mar", "Apr", "May", "Jun", "Jul", "Aug", "Sep", "Oct", "Nov", "Dec"]

/-- The un-rounded day-branch bin energy `full_watts*util/1000*1.0` at a given
hour for a given noise term (`_make_series`, day branch). -/
noncomputable def dayBinKwhRaw (spec : TdpSpec) (hour : ℝ) (noise : ℝ) : ℝ :=
  ((fullWatts spec : ℚ) : ℝ) * max 0.05 (min 0.95 (utilProfileDay hour + noise)) / 1000 * 1

/-- `_make_series(range_key, spec)`, parameterised by the Mersenne-Twister
semantics `mt`.  The month branch computes (and draws noise for) a utilization
it never uses in the stored kWh; the dead binding is omitted, and since draws
are indexed by loop position, omission does not shift later draws. -/
noncomputable def makeSeries (mt : String → ℕ → ℝ) (range_key : String)
    (spec : TdpSpec) : List String × List ℝ :=
  let stream := mt "project-usage"
  let full : ℝ := ((fullWatts spec : ℚ) : ℝ)
  if range_key = "day" then
    ((List.range 24).map fun h => zfill2 h ++ ":00",
     (List.range 24).map fun (h : ℕ) =>
       let util0 := utilProfileDay (h : ℝ) + uniform (-0.05) 0.05 (stream h)
       let util := max 0.05 (min 0.95 util0)
       pyRound 3 (full * util / 1000 * 1))
  else if range_key = "month" then
    ((List.range' 1 30).map fun d => "D" ++ toString d,
     (List.range' 1 30).map fun d =>
       let weekday := d % 7 != 6 && d % 7 != 0
       let hours : ℝ := if weekday then 8 else 4
       pyRound 3 (full / 1000 * hours))
  else if range_key = "year" then
    (monthNames,
     (List.range' 1 12).map fun m =>
       let season : ℝ := if m = 2 ∨ m = 3 ∨ m = 10 ∨ m = 11 then 0.6 else 0.5
       let util0 := season + uniform (-0.07) 0.07 (stream (m-1))
       let util := max 0.05 (min 0.95 util0)
       pyRound 2 (full / 1000 * (8*22) * util))
  else ([], [])

/-- **C4 counterexample.**  At hour 8 the day profile evaluates to `0.25`
(the sine term vanishes), not approximately `0.70`; the zero-noise bin energy
for the claimed spec is `0.0485 kWh`, not approximately `0.1358`. -/
theorem utilProfileDay_hour8_counterexample :
    utilProfileDay 8 = 0.25 ∧
    0.45 ≤ |utilProfileDay 8 - 0.70| ∧
    dayBinKwhRaw ⟨12, 12, 0, 250, 20, 30⟩ 8 0 = 0.0485 ∧
    0.087 ≤ |dayBinKwhRaw ⟨12, 12, 0, 250, 20, 30⟩ 8 0 - 0.1358| := by
  have harg : ((8:ℝ) - 8) * Real.pi / 12 = 0 := by ring
  have hsin : Real.sin (((8:ℝ) - 8) * Real.pi / 12) = 0 := by rw [harg, Real.sin_zero]
  have hutil : utilProfileDay 8 = 0.25 := by
    rw [utilProfileDay, hsin]
    rw [show (0.25:ℝ) + 0.45 * 0 = 0.25 by ring]
    rw [min_eq_right (by norm_num : (0.25:ℝ) ≤ 0.95), max_eq_right (by norm_num : (0.05:ℝ) ≤ 0.25)]
  have hfull : (fullWatts ⟨12, 12, 0, 250, 20, 30⟩ : ℚ) = 194 := by
    norm_num [fullWatts]
  have hkwh : dayBinKwhRaw ⟨12, 12, 0, 250, 20, 30⟩ 8 0 = 0.0485 := by
    rw [dayBinKwhRaw, hutil, hfull]
    rw [show (0.25:ℝ) + 0 = 0.25 by ring]
    rw [min_eq_right (by norm_num : (0.25:ℝ) ≤ 0.95), max_eq_right (by norm_num : (0.05:ℝ) ≤ 0.25)]
    norm_num
  refine ⟨hutil, ?_, hkwh, ?_⟩
  · rw [hutil]
    rw [abs_of_nonpos (by norm_num : (0.25:ℝ) - 0.70 ≤ 0)]
    norm_num
  · rw [hkwh]
    rw [abs_of_nonpos (by norm_num : (0.0485:ℝ) - 0.1358 ≤ 0)]
    norm_num

/-- **C4 (amended).**  `full_watts` of the claimed spec is 194 W; the day
profile peaks at hour 14, where the utilization is exactly `0.70` and the
zero-noise bin energy is `194/1000*0.70*1 = 0.1358 kWh`. -/
theorem dayBin_full_watts_and_peak :
    fullWatts ⟨12, 12, 0, 250, 20, 30⟩ = 194 ∧
    utilProfileDay 14 = 0.70 ∧
    dayBinKwhRaw ⟨12, 12, 0, 250, 20, 30⟩ 14 0 = 0.1358 := by
  have harg : ((14:ℝ) - 8) * Real.pi / 12 = Real.pi / 2 := by ring
  have hsin : Real.sin (((14:ℝ) - 8) * Real.pi / 12) = 1 := by
    rw [harg, Real.sin_pi_div_two]
  have hutil : utilProfileDay 14 = 0.70 := by
    rw [utilProfileDay, hsin]
    rw [show (0.25:ℝ) + 0.45 * 1 = 0.70 by ring]
    rw [min_eq_right (by norm_num : (0.70:ℝ) ≤ 0.95), max_eq_right (by norm_num : (0.05:ℝ) ≤ 0.70)]
  have hfull : (fullWatts ⟨12, 12, 0, 250, 20, 30⟩ : ℚ) = 194 := by
    norm_num [fullWatts]
  refine ⟨hfull, hutil, ?_⟩
  rw [dayBinKwhRaw, hutil, hfull]
  rw [show (0.70:ℝ) + 0 = 0.70 by ring]
  rw [min_eq_right (by norm_num : (0.70:ℝ) ≤ 0.95), max_eq_right (by norm_num : (0.05:ℝ) ≤ 0.70)]
  norm_num

/-- **C7.** The synthetic generator is deterministic: it reseeds a fresh
generator from the fixed seed `"project-usage"` on every call, so its output
depends only on `(range_key, spec)` and the draw sequence of that seed.  Any
two invocations — in particular with ambient pseudo-random state that has
advanced arbitrarily in between, modelled as two stream families agreeing on
the `"project-usage"` seed — produce identical label and kWh sequences. -/
theorem makeSeries_deterministic (mt mt' : String → ℕ → ℝ) (range_key : String)
    (spec : TdpSpec) (h : ∀ n, mt "project-usage" n = mt' "project-usage" n) :
    makeSeries mt range_key spec = makeSeries mt' range_key spec := by
  have hs : mt "project-usage" = mt' "project-usage" := funext h
  unfold makeSeries
  rw [hs]

/-- Witness for C7: two concrete stream families agreeing on the seed. -/
theorem makeSeries_deterministic_witness :
    (∀ n, (fun (_ : String) (_ : ℕ) => (0:ℝ)) "project-usage" n
        = (fun (s : String) (_ : ℕ) => if s = "project-usage" then (0:ℝ) else 1)
            "project-usage" n) ∧
    makeSeries (fun _ _ => (0:ℝ)) "day" defaultTdpSpec.toNumeric
      = makeSeries (fun s _ => if s = "project-usage" then (0:ℝ) else 1) "day"
          defaultTdpSpec.toNumeric := by
  have h : ∀ n, (fun (_ : String) (_ : ℕ) => (0:ℝ)) "project-usage" n
      = (fun (s : String) (_ : ℕ) => if s = "project-usage" then (0:ℝ) else 1)
          "project-usage" n := by
    intro n
    simp
  exact ⟨h, makeSeries_deterministic _ _ "day" defaultTdpSpec.toNumeric h⟩

/-! ### Time bucketer (`_bin_setup`) and calendar months

The year bucket uses `datetime.fromtimestamp(ts, tz=utc).month`.  CPython's
conversion is embedded as the standard proleptic-Gregorian civil-from-days
computation (days since the epoch, era of 146097 days, year-of-era, month from
day-of-year); it was validated against CPython over a wide timestamp range.
`/` and `%` here are Euclidean (= Python floor division, divisors positive).
-/

/-- Year-of-era from day-of-era. -/
def civilYoe (doe : ℤ) : ℤ :=
  (doe - doe / 1460 + doe / 36524 - doe / 146096) / 365

/-- Day-of-year (March-based) from day-of-era. -/
def civilDoy (doe : ℤ) : ℤ :=
  doe - (365 * civilYoe doe + (civilYoe doe) / 4 - (civilYoe doe) / 100)

/-- March-based month index `(5*doy+2)/153`. -/
def civilMp (doe : ℤ) : ℤ := (5 * civilDoy doe + 2) / 153

/-- Calendar month (1..12) of a day-of-era. -/
def monthOfDoe (doe : ℤ) : ℤ :=
  if civilMp doe < 10 then civilMp doe + 3 else civilMp doe - 9

/-- Calendar month of a day count since 1970-01-01 (the month only depends on
the position within the 146097-day Gregorian era). -/
def monthFromDays (z : ℤ) : ℤ := monthOfDoe ((z + 719468) % 146097)

/-- `datetime.fromtimestamp(ts, tz=timezone.utc).month`. -/
def utcMonth (ts : ℤ) : ℤ := monthFromDays (ts / 86400)

/-- Linear-arithmetic core of the month bound: for any day-of-era in
`[0, 146096]`, the March-based month index lands in `[0, 11]`.  The quantities
are abstracted so that every division appears as its defining equation. -/
theorem doeMonthAux (a q1 q2 q3 N y y4 y100 doy mp : ℤ)
    (ha0 : 0 ≤ a) (ha1 : a ≤ 146096)
    (c1 : 1460*q1 ≤ a ∧ a < 1460*(q1+1))
    (c2 : 36524*q2 ≤ a ∧ a < 36524*(q2+1))
    (c3 : 146096*q3 ≤ a ∧ a < 146096*(q3+1))
    (hN : N = a - q1 + q2 - q3)
    (cy : 365*y ≤ N ∧ N < 365*(y+1))
    (cy4 : 4*y4 ≤ y ∧ y < 4*(y4+1))
    (cy100 : 100*y100 ≤ y ∧ y < 100*(y100+1))
    (hdoy : doy = a - (365*y + y4 - y100))
    (cmp : 153*mp ≤ 5*doy + 2 ∧ 5*doy + 2 < 153*(mp+1)) :
    0 ≤ mp ∧ mp ≤ 11 := by
  rcases (by omega : a = 146096 ∨ a ≤ 146095) with hlast | hsmall
  · omega
  · have hq3z : q3 = 0 := by omega
    have hA2 : q1 - 1 ≤ y4 := by omega
    have hA1 : y4 ≤ q1 := by
      by_contra hc
      push_neg at hc
      have s1 : 4*q1 + 4 ≤ y := by omega
      have s2 : 1460*q1 + 1460 ≤ N := by omega
      have s3 : q1 < q2 := by omega
      omega
    have hB1 : y100 ≤ q2 := by omega
    have hB : y100 = q2 := by
      by_contra hc
      have t1 : y ≤ 100*q2 - 1 := by omega
      have t2 : N ≤ 36500*q2 - 1 := by omega
      omega
    have hdoy0 : 0 ≤ doy ∧ doy ≤ 365 := by omega
    omega

theorem monthOfDoe_bounds (doe : ℤ) (h0 : 0 ≤ doe) (h1 : doe ≤ 146096) :
    1 ≤ monthOfDoe doe ∧ monthOfDoe doe ≤ 12 := by
  have key := doeMonthAux doe (doe / 1460) (doe / 36524) (doe / 146096)
      (doe - doe / 1460 + doe / 36524 - doe / 146096)
      (civilYoe doe) ((civilYoe doe) / 4) ((civilYoe doe) / 100)
      (civilDoy doe) (civilMp doe)
      h0 h1 (by omega) (by omega) (by omega) rfl
      (by unfold civilYoe; omega) (by omega) (by omega) rfl
      (by unfold civilMp; omega)
  unfold monthOfDoe
  split <;> omega

theorem utcMonth_bounds (ts : ℤ) : 1 ≤ utcMonth ts ∧ utcMonth ts ≤ 12 := by
  unfold utcMonth monthFromDays
  exact monthOfDoe_bounds _ (Int.emod_nonneg _ (by norm_num)) (by
    have := Int.emod_lt_of_pos (ts / 86400 + 719468) (by norm_num : (0:ℤ) < 146097)
    omega)

/-- Number of bins per range (`bins` in `_bin_setup`). -/
def binCount (range_key : String) : ℕ :=
  if range_key = "day" then 24
  else if range_key = "month" then 30
  else if range_key = "year" then 12
  else 0

/-- `_bin_setup(range_key)`: the window `(start, end, step_s, labels,
ts_to_bin, bins)`; `none` models the `ValueError` on an unsupported range. -/
def binSetup (range_key : String) (now : ℤ) :
    Option (ℤ × ℤ × ℤ × List String × (ℤ → ℤ) × ℕ) :=
  if range_key = "day" then
    let start := now - 24*3600
    some (start, now, 3600, (List.range 24).map (fun h => zfill2 h ++ ":00"),
          fun ts => max 0 (min 23 ((ts - start) / 3600)), 24)
  else if range_key = "month" then
    let start := now - 30*86400
    some (start, now, 86400, (List.range' 1 30).map (fun d => "D" ++ toString d),
          fun ts => max 0 (min 29 ((ts - start) / 86400)), 30)
  else if range_key = "year" then
    let start := now - 365*86400
    some (start, now, 86400, monthNames, fun ts => utcMonth ts - 1, 12)
  else none

/-! ### Prometheus aggregation core (`_prometheus_usage_series`)

The two channel matrices have already been flattened by
`_ts_map_from_matrix` into finite `timestamp → watts` maps (summing across
series); here they are association lists with `.get(ts, 0.0)` lookup.  The
network, label resolution and query text are outside the embedding; the
binning/accumulation loop is embedded as written.  Iteration order over
`sorted(set(...))` is irrelevant to the properties proved (the source's
`sorted` is dropped; the key set is deduplicated). -/

/-- `d.get(ts, 0.0)` on a flattened channel map. -/
def tsLookup (m : List (ℤ × ℝ)) (ts : ℤ) : ℝ := (m.lookup ts).getD 0

/-- `kwh_bins[idx] += v` on the bin list. -/
def addAt (l : List ℝ) (i : ℕ) (v : ℝ) : List ℝ := l.set i (l.getD i 0 + v)

/-- One iteration of the accumulation loop: bin the summed watts at `ts`,
guarded by `0 <= idx < n_bins`. -/
noncomputable def binStep (cpuTs ramTs : List (ℤ × ℝ)) (toBin : ℤ → ℤ) (nbins : ℕ) (step_s : ℤ)
    (acc : List ℝ) (ts : ℤ) : List ℝ :=
  if 0 ≤ toBin ts ∧ toBin ts < (nbins : ℤ) then
    addAt acc (toBin ts).toNat
      ((tsLookup cpuTs ts + tsLookup ramTs ts) / 1000 * ((step_s : ℝ) / 3600))
  else acc

/-- The pure core of `_prometheus_usage_series` after the two channel matrices
are flattened: build the window, accumulate every timestamp into its bin, and
round each bin to 3 decimals. -/
noncomputable def prometheusBinning (range_key : String) (now : ℤ)
    (cpuTs ramTs : List (ℤ × ℝ)) : Option (List String × List ℝ) :=
  match binSetup range_key now with
  | none => none
  | some (_start, _endT, step_s, labels, toBin, nbins) =>
    let allTs := ((cpuTs.map Prod.fst) ++ (ramTs.map Prod.fst)).dedup
    let bins := allTs.foldl (binStep cpuTs ramTs toBin nbins step_s)
      (List.replicate nbins 0)
    some (labels, bins.map (pyRound 3))

lemma addAt_length (l : List ℝ) (i : ℕ) (v : ℝ) : (addAt l i v).length = l.length := by
  simp [addAt]

lemma binStep_length (cpuTs ramTs : List (ℤ × ℝ)) (toBin : ℤ → ℤ) (nbins : ℕ)
    (step_s : ℤ) (acc : List ℝ) (ts : ℤ) :
    (binStep cpuTs ramTs toBin nbins step_s acc ts).length = acc.length := by
  unfold binStep
  split
  · exact addAt_length ..
  · rfl

lemma foldl_binStep_length (cpuTs ramTs : List (ℤ × ℝ)) (toBin : ℤ → ℤ) (nbins : ℕ)
    (step_s : ℤ) (l : List ℤ) :
    ∀ acc : List ℝ,
      (l.foldl (binStep cpuTs ramTs toBin nbins step_s) acc).length = acc.length := by
  induction l with
  | nil => intro acc; rfl
  | cons t l ih =>
    intro acc
    rw [List.foldl_cons, ih, binStep_length]

/-- **C6.** For every supported range, `_bin_setup` produces as many labels as
bins (24/30/12), its `ts_to_bin` maps every timestamp of the window
`[start, end)` into `[0, bin_count)`, and the accumulation loop of
`_prometheus_usage_series` yields label and kWh lists of exactly
`bin_count` entries for any channel data. -/
theorem bin_consistency (range_key : String)
    (h : range_key = "day" ∨ range_key = "month" ∨ range_key = "year")
    (now : ℤ) (cpuTs ramTs : List (ℤ × ℝ)) :
    ∃ start endT step_s labels toBin nbins,
      binSetup range_key now = some (start, endT, step_s, labels, toBin, nbins) ∧
      nbins = binCount range_key ∧
      labels.length = binCount range_key ∧
      (∀ ts : ℤ, start ≤ ts → ts < endT →
        0 ≤ toBin ts ∧ toBin ts < (binCount range_key : ℤ)) ∧
      ∃ ls ks, prometheusBinning range_key now cpuTs ramTs = some (ls, ks) ∧
        ls.length = binCount range_key ∧ ks.length = binCount range_key := by
  rcases h with h | h | h <;> subst h
  · have hbs : binSetup "day" now
        = some (now - 24*3600, now, 3600,
            (List.range 24).map (fun h => zfill2 h ++ ":00"),
            fun ts => max 0 (min 23 ((ts - (now - 24*3600)) / 3600)), 24) := rfl
    have hpb : prometheusBinning "day" now cpuTs ramTs
        = some ((List.range 24).map (fun h => zfill2 h ++ ":00"),
            ((((cpuTs.map Prod.fst) ++ (ramTs.map Prod.fst)).dedup).foldl
              (binStep cpuTs ramTs
                (fun ts => max 0 (min 23 ((ts - (now - 24*3600)) / 3600))) 24 3600)
              (List.replicate 24 0)).map (pyRound 3)) := rfl
    refine ⟨_, _, _, _, _, _, hbs, rfl, ?_, ?_, _, _, hpb, ?_, ?_⟩
    · simp [binCount]
    · intro ts _ _
      show 0 ≤ max 0 (min 23 ((ts - (now - 24*3600)) / 3600)) ∧ _
      constructor
      · omega
      · show _ < ((binCount "day" : ℕ) : ℤ)
        have : binCount "day" = 24 := rfl
        rw [this]
        omega
    · simp [binCount]
    · show _ = binCount "day"
      rw [List.length_map, foldl_binStep_length, List.length_replicate]
      rfl
  · have hbs : binSetup "month" now
        = some (now - 30*86400, now, 86400,
            (List.range' 1 30).map (fun d => "D" ++ toString d),
            fun ts => max 0 (min 29 ((ts - (now - 30*86400)) / 86400)), 30) := rfl
    have hpb : prometheusBinning "month" now cpuTs ramTs
        = some ((List.range' 1 30).map (fun d => "D" ++ toString d),
            ((((cpuTs.map Prod.fst) ++ (ramTs.map Prod.fst)).dedup).foldl
              (binStep cpuTs ramTs
                (fun ts => max 0 (min 29 ((ts - (now - 30*86400)) / 86400))) 30 86400)
              (List.replicate 30 0)).map (pyRound 3)) := rfl
    refine ⟨_, _, _, _, _, _, hbs, rfl, ?_, ?_, _, _, hpb, ?_, ?_⟩
    · simp [binCount]
    · intro ts _ _
      show 0 ≤ max 0 (min 29 ((ts - (now - 30*86400)) / 86400)) ∧ _
      constructor
      · omega
      · show _ < ((binCount "month" : ℕ) : ℤ)
        have : binCount "month" = 30 := rfl
        rw [this]
        omega
    · simp [binCount]
    · show _ = binCount "month"
      rw [List.length_map, foldl_binStep_length, List.length_replicate]
      rfl
  · have hbs : binSetup "year" now
        = some (now - 365*86400, now, 86400, monthNames,
            fun ts => utcMonth ts - 1, 12) := rfl
    have hpb : prometheusBinning "year" now cpuTs ramTs
        = some (monthNames,
            ((((cpuTs.map Prod.fst) ++ (ramTs.map Prod.fst)).dedup).foldl
              (binStep cpuTs ramTs (fun ts => utcMonth ts - 1) 12 86400)
              (List.replicate 12 0)).map (pyRound 3)) := rfl
    refine ⟨_, _, _, _, _, _, hbs, rfl, ?_, ?_, _, _, hpb, ?_, ?_⟩
    · simp [binCount, monthNames]
    · intro ts _ _
      have := utcMonth_bounds ts
      show 0 ≤ utcMonth ts - 1 ∧ utcMonth ts - 1 < ((binCount "year" : ℕ) : ℤ)
      have h12 : binCount "year" = 12 := rfl
      rw [h12]
      omega
    · simp [binCount, monthNames]
    · show _ = binCount "year"
      rw [List.length_map, foldl_binStep_length, List.length_replicate]
      rfl

/-- Witness for C6 on the year range with concrete channel data. -/
theorem bin_consistency_witness :
    (("year" = "day" ∨ "year" = "month" ∨ "year" = "year") ∧
      (1700000000 : ℤ) = 1700000000) ∧
    (∃ start endT step_s labels toBin nbins,
      binSetup "year" 1700000000 = some (start, endT, step_s, labels, toBin, nbins) ∧
      nbins = binCount "year" ∧
      labels.length = binCount "year" ∧
      (∀ ts : ℤ, start ≤ ts → ts < endT →
        0 ≤ toBin ts ∧ toBin ts < (binCount "year" : ℤ)) ∧
      ∃ ls ks, prometheusBinning "year" 1700000000 [(1699999000, 100)] [] = some (ls, ks) ∧
        ls.length = binCount "year" ∧ ks.length = binCount "year") :=
  ⟨⟨Or.inr (Or.inr rfl), rfl⟩,
    bin_consistency "year" (Or.inr (Or.inr rfl)) 1700000000 [(1699999000, 100)] []⟩

/-! ### Cache manager and read path (`project_usage_api`)

The Django ORM is modelled as an explicit row list: `objects.create` appends,
the filtered `order_by("-updated_at").first()` query picks the matching row
with the greatest `updated_at`.  `now` is the request instant (`tz_now()`,
exact ℚ seconds) and `nowUnix` the `int(time.time())` used by `_bin_meta`.
The outcome of the Prometheus call is a parameter
`live : Except String (List String × List ℝ)` — `.error` covers *any*
exception in the live aggregation (unreachable backend, timeout, malformed
payload); `saveOk` tells whether `objects.create` raised.  The JSON response
echoes of `range` and `spec` are presentation-only and omitted from
`ApiResult`. -/

/-- `_cache_ttl_seconds`; `none` models the `KeyError` on unsupported keys. -/
def cacheTtlSeconds (range_key : String) : Option ℤ :=
  if range_key = "day" then some 3600
  else if range_key = "month" then some (24*3600)
  else if range_key = "year" then some (24*3600)
  else none

/-- `_bin_meta(range_key)` = `(start, end, step_s)`; `none` models the
  `ValueError` on unsupported keys. -/
def binMeta (range_key : String) (nowUnix : ℤ) : Option (ℤ × ℤ × ℤ) :=
  if range_key = "day" then some (nowUnix - 24*3600, nowUnix, 3600)
  else if range_key = "month" then some (nowUnix - 30*86400, nowUnix, 86400)
  else if range_key = "year" then some (nowUnix - 365*86400, nowUnix, 86400)
  else none

/-- `PROJECT_TO_LABELVAL`. -/
def projectToLabelval (source : String) : Option String :=
  if source = "clf" then some "CDAaaS"
  else if source = "isis" then some "IDAaaS"
  else if source = "diamond" then some "DDAaaS"
  else none

/-- A persisted `ProjectEnergy` row. -/
structure StoredRow where
  source : String
  range_key : String
  spec_hash : String
  spec_json : PySpec
  labels : List String
  kwh : List ℝ
  total_kwh : ℝ
  start_unix : ℤ
  end_unix : ℤ
  step_seconds : ℤ
  updated_at : ℚ

/-- The `filter(source=…, range_key=…, spec_hash=…)` predicate. -/
def rowMatches (r : StoredRow) (source range_key spec_hash : String) : Bool :=
  r.source == source && r.range_key == range_key && r.spec_hash == spec_hash

/-- `objects.filter(...).order_by("-updated_at").first()`: the freshest
matching row. -/
def latestFor (db : List StoredRow) (source range_key spec_hash : String) :
    Option StoredRow :=
  (db.filter (fun r => rowMatches r source range_key spec_hash)).foldl
    (fun acc r =>
      match acc with
      | none => some r
      | some b => if b.updated_at < r.updated_at then some r else some b) none

/-- Step 1 of `project_usage_api`: serve from cache iff the source is
cacheable, no forced refresh, a row exists and its age is below the TTL. -/
def cacheLookup (source range_key spec_hash : String) (force : Bool)
    (db : List StoredRow) (now : ℚ) (ttl : ℤ) : Option StoredRow :=
  if (source = "clf" ∨ source = "isis" ∨ source = "diamond") ∧ force = false then
    match latestFor db source range_key spec_hash with
    | some row => if now - row.updated_at < (ttl : ℚ) then some row else none
    | none => none
  else none

/-- Step 2 of `project_usage_api` (the `try/except` block): Prometheus for
backend-eligible sources with the mock series as the universal `except`
fallback, the mock series directly otherwise. -/
noncomputable def computeSeries (mt : String → ℕ → ℝ) (range_key source : String)
    (spec : TdpSpec) (live : Except String (List String × List ℝ)) :
    List String × List ℝ :=
  if (projectToLabelval source).isSome then
    match live with
    | .ok p => p
    | .error _ => makeSeries mt range_key spec
  else makeSeries mt range_key spec

/-- The row written by `ProjectEnergy.objects.create` on the save path
(`updated_at` is the creation instant via `auto_now`). -/
def createdRow (source range_key spec_hash : String) (spec : PySpec)
    (labels : List String) (kwh : List ℝ) (total : ℝ) (now : ℚ) (nowUnix : ℤ) :
    StoredRow :=
  let m := (binMeta range_key nowUnix).getD (0, 0, 0)
  { source := source, range_key := range_key, spec_hash := spec_hash
    spec_json := spec, labels := labels, kwh := kwh, total_kwh := total
    start_unix := m.1, end_unix := m.2.1, step_seconds := m.2.2, updated_at := now }

/-- Outcome of `project_usage_api`: a 400 for an invalid range, otherwise the
served `labels`/`kwh`/`total_kwh`. -/
inductive ApiResult where
  | badRequest (msg : String)
  | ok (labels : List String) (kwh : List ℝ) (total_kwh : ℝ)

/-- The `JsonResponse` built from a freshly computed series
(`total_kwh = round(sum(kwh), 3)`). -/
noncomputable def computedResponse (mt : String → ℕ → ℝ) (range_key source : String)
    (spec : PySpec) (live : Except String (List String × List ℝ)) : ApiResult :=
  .ok (computeSeries mt range_key source spec.toNumeric live).1
      (computeSeries mt range_key source spec.toNumeric live).2
      (pyRound 3 (computeSeries mt range_key source spec.toNumeric live).2.sum)

/-- `project_usage_api` over the explicit store: validate the range, try the
cache, otherwise compute (live or synthetic), then best-effort persist a new
row for cacheable sources and return the computed series either way. -/
noncomputable def projectUsageApi (mt : String → ℕ → ℝ) (range_key source : String)
    (force : Bool) (spec : PySpec) (db : List StoredRow) (now : ℚ) (nowUnix : ℤ)
    (live : Except String (List String × List ℝ)) (saveOk : Bool) :
    ApiResult × List StoredRow :=
  if range_key = "day" ∨ range_key = "month" ∨ range_key = "year" then
    match cacheLookup source range_key (specHash spec) force db now
        ((cacheTtlSeconds range_key).getD 0) with
    | some row => (.ok row.labels row.kwh row.total_kwh, db)
    | none =>
      if (source = "clf" ∨ source = "isis" ∨ source = "diamond") ∧ saveOk = true then
        (computedResponse mt range_key source spec live,
         db ++ [createdRow source range_key (specHash spec) spec
            (computeSeries mt range_key source spec.toNumeric live).1
            (computeSeries mt range_key source spec.toNumeric live).2
            (pyRound 3 (computeSeries mt range_key source spec.toNumeric live).2.sum)
            now nowUnix])
      else (computedResponse mt range_key source spec live, db)
  else (.badRequest "range must be day|month|year", db)

lemma cacheLookup_nil (source range_key spec_hash : String) (force : Bool)
    (now : ℚ) (ttl : ℤ) :
    cacheLookup source range_key spec_hash force [] now ttl = none := by
  unfold cacheLookup latestFor
  split <;> rfl

lemma projectUsageApi_hit (mt : String → ℕ → ℝ) (range_key source : String)
    (force : Bool) (spec : PySpec) (db : List StoredRow) (now : ℚ) (nowUnix : ℤ)
    (live : Except String (List String × List ℝ)) (saveOk : Bool) (row : StoredRow)
    (hr : range_key = "day" ∨ range_key = "month" ∨ range_key = "year")
    (hlk : cacheLookup source range_key (specHash spec) force db now
        ((cacheTtlSeconds range_key).getD 0) = some row) :
    projectUsageApi mt range_key source force spec db now nowUnix live saveOk
      = (.ok row.labels row.kwh row.total_kwh, db) := by
  unfold projectUsageApi
  rw [if_pos hr, hlk]

lemma projectUsageApi_miss (mt : String → ℕ → ℝ) (range_key source : String)
    (force : Bool) (spec : PySpec) (db : List StoredRow) (now : ℚ) (nowUnix : ℤ)
    (live : Except String (List String × List ℝ)) (saveOk : Bool)
    (hr : range_key = "day" ∨ range_key = "month" ∨ range_key = "year")
    (hlk : cacheLookup source range_key (specHash spec) force db now
        ((cacheTtlSeconds range_key).getD 0) = none) :
    projectUsageApi mt range_key source force spec db now nowUnix live saveOk
        = (computedResponse mt range_key source spec live,
          if (source = "clf" ∨ source = "isis" ∨ source = "diamond") ∧ saveOk = true then
            db ++ [createdRow source range_key (specHash spec) spec
              (computeSeries mt range_key source spec.toNumeric live).1
              (computeSeries mt range_key source spec.toNumeric live).2
              (pyRound 3 (computeSeries mt range_key source spec.toNumeric live).2.sum)
              now nowUnix]
          else db) := by
  unfold projectUsageApi
  rw [if_pos hr, hlk]
  show (if (source = "clf" ∨ source = "isis" ∨ source = "diamond") ∧ saveOk = true then _
        else _) = _
  by_cases hc : (source = "clf" ∨ source = "isis" ∨ source = "diamond") ∧ saveOk = true
  · simp only [if_pos hc]
  · simp only [if_neg hc]

lemma projectUsageApi_miss_fst (mt : String → ℕ → ℝ) (range_key source : String)
    (force : Bool) (spec : PySpec) (db : List StoredRow) (now : ℚ) (nowUnix : ℤ)
    (live : Except String (List String × List ℝ)) (saveOk : Bool)
    (hr : range_key = "day" ∨ range_key = "month" ∨ range_key = "year")
    (hlk : cacheLookup source range_key (specHash spec) force db now
        ((cacheTtlSeconds range_key).getD 0) = none) :
    (projectUsageApi mt range_key source force spec db now nowUnix live saveOk).1
      = computedResponse mt range_key source spec live := by
  rw [projectUsageApi_miss mt range_key source force spec db now nowUnix live saveOk hr hlk]

lemma projectUsageApi_miss_snd (mt : String → ℕ → ℝ) (range_key source : String)
    (force : Bool) (spec : PySpec) (db : List StoredRow) (now : ℚ) (nowUnix : ℤ)
    (live : Except String (List String × List ℝ)) (saveOk : Bool)
    (hr : range_key = "day" ∨ range_key = "month" ∨ range_key = "year")
    (hlk : cacheLookup source range_key (specHash spec) force db now
        ((cacheTtlSeconds range_key).getD 0) = none) :
    (projectUsageApi mt range_key source force spec db now nowUnix live saveOk).2
      = (if (source = "clf" ∨ source = "isis" ∨ source = "diamond") ∧ saveOk = true then
          db ++ [createdRow source range_key (specHash spec) spec
            (computeSeries mt range_key source spec.toNumeric live).1
            (computeSeries mt range_key source spec.toNumeric live).2
            (pyRound 3 (computeSeries mt range_key source spec.toNumeric live).2.sum)
            now nowUnix]
        else db) := by
  rw [projectUsageApi_miss mt range_key source force spec db now nowUnix live saveOk hr hlk]

lemma cacheLookup_none_of_stale (source range_key spec_hash : String) (force : Bool)
    (db : List StoredRow) (now : ℚ) (ttl : ℤ) (row : StoredRow)
    (hs : source = "clf" ∨ source = "isis" ∨ source = "diamond")
    (hrow : latestFor db source range_key spec_hash = some row)
    (hstale : (ttl : ℚ) ≤ now - row.updated_at ∨ force = true) :
    cacheLookup source range_key spec_hash force db now ttl = none := by
  unfold cacheLookup
  rcases hstale with hst | hf
  · cases force with
    | true => rw [if_neg (by simp)]
    | false =>
      rw [if_pos ⟨hs, rfl⟩, hrow]
      show (if now - row.updated_at < ((ttl : ℤ) : ℚ) then some row else none) = none
      exact if_neg (not_lt.mpr hst)
  · subst hf
    rw [if_neg (by simp)]

/-- **C2.** The TTLs are `day → 3600 s`, `month/year → 86400 s`; for a cached
source with an existing freshest row of age `Δ = now - updated_at`, the read
returns the cached labels/kwh/total unchanged (and writes nothing) iff
`Δ < ttl(range)` and no forced refresh, and recomputes iff `Δ ≥ ttl(range)` or
`force` is set. -/
theorem cache_ttl_freshness (mt : String → ℕ → ℝ) (range_key source : String)
    (force : Bool) (spec : PySpec) (db : List StoredRow) (now : ℚ) (nowUnix : ℤ)
    (live : Except String (List String × List ℝ)) (saveOk : Bool) (row : StoredRow)
    (hr : range_key = "day" ∨ range_key = "month" ∨ range_key = "year")
    (hs : source = "clf" ∨ source = "isis" ∨ source = "diamond")
    (hrow : latestFor db source range_key (specHash spec) = some row) :
    (cacheTtlSeconds "day" = some 3600 ∧ cacheTtlSeconds "month" = some 86400 ∧
      cacheTtlSeconds "year" = some 86400) ∧
    (now - row.updated_at < (((cacheTtlSeconds range_key).getD 0 : ℤ) : ℚ) →
      force = false →
      projectUsageApi mt range_key source force spec db now nowUnix live saveOk
        = (.ok row.labels row.kwh row.total_kwh, db)) ∧
    ((((cacheTtlSeconds range_key).getD 0 : ℤ) : ℚ) ≤ now - row.updated_at ∨
        force = true →
      (projectUsageApi mt range_key source force spec db now nowUnix live saveOk).1
        = computedResponse mt range_key source spec live) := by
  refine ⟨⟨rfl, rfl, rfl⟩, ?_, ?_⟩
  · intro hfresh hforce
    refine projectUsageApi_hit mt range_key source force spec db now nowUnix live saveOk
      row hr ?_
    unfold cacheLookup
    rw [if_pos ⟨hs, hforce⟩, hrow]
    show (if now - row.updated_at < (((cacheTtlSeconds range_key).getD 0 : ℤ) : ℚ)
          then some row else none) = some row
    exact if_pos hfresh
  · intro hstale
    exact projectUsageApi_miss_fst mt range_key source force spec db now nowUnix live saveOk
      hr (cacheLookup_none_of_stale _ _ _ _ _ _ _ row hs hrow hstale)

/-- A concrete stored row used by the cache witnesses. -/
def sampleRow : StoredRow :=
  { source := "clf", range_key := "day", spec_hash := specHash defaultTdpSpec
    spec_json := defaultTdpSpec, labels := ["00:00"], kwh := [1], total_kwh := 1
    start_unix := 0, end_unix := 86400, step_seconds := 3600, updated_at := 100 }

/-- Witness for C2: one cached row of age 50 s against the day TTL. -/
theorem cache_ttl_freshness_witness :
    (("day" = "day" ∨ "day" = "month" ∨ "day" = "year") ∧
     ("clf" = "clf" ∨ "clf" = "isis" ∨ "clf" = "diamond") ∧
     latestFor [sampleRow] "clf" "day" (specHash defaultTdpSpec) = some sampleRow) ∧
    ((cacheTtlSeconds "day" = some 3600 ∧ cacheTtlSeconds "month" = some 86400 ∧
      cacheTtlSeconds "year" = some 86400) ∧
     ((150 : ℚ) - sampleRow.updated_at < (((cacheTtlSeconds "day").getD 0 : ℤ) : ℚ) →
       false = false →
       projectUsageApi (fun _ _ => (0:ℝ)) "day" "clf" false defaultTdpSpec [sampleRow]
           150 150 (.ok (["00:00"], [1])) true
         = (.ok sampleRow.labels sampleRow.kwh sampleRow.total_kwh, [sampleRow])) ∧
     ((((cacheTtlSeconds "day").getD 0 : ℤ) : ℚ) ≤ (150 : ℚ) - sampleRow.updated_at ∨
         false = true →
       (projectUsageApi (fun _ _ => (0:ℝ)) "day" "clf" false defaultTdpSpec [sampleRow]
           150 150 (.ok (["00:00"], [1])) true).1
         = computedResponse (fun _ _ => (0:ℝ)) "day" "clf" defaultTdpSpec
             (.ok (["00:00"], [1])))) := by
  have h1 : ("day" = "day" ∨ "day" = "month" ∨ "day" = "year") := Or.inl rfl
  have h2 : ("clf" = "clf" ∨ "clf" = "isis" ∨ "clf" = "diamond") := Or.inl rfl
  have h3 : latestFor [sampleRow] "clf" "day" (specHash defaultTdpSpec) = some sampleRow := by
    simp [latestFor, rowMatches, sampleRow]
  exact ⟨⟨h1, h2, h3⟩,
    cache_ttl_freshness (fun _ _ => (0:ℝ)) "day" "clf" false defaultTdpSpec [sampleRow]
      150 150 (.ok (["00:00"], [1])) true sampleRow h1 h2 h3⟩

lemma makeSeries_length (mt : String → ℕ → ℝ) (range_key : String) (spec : TdpSpec)
    (h : range_key = "day" ∨ range_key = "month" ∨ range_key = "year") :
    (makeSeries mt range_key spec).1.length = binCount range_key ∧
    (makeSeries mt range_key spec).2.length = binCount range_key := by
  rcases h with h | h | h <;> subst h <;>
    exact ⟨by simp [makeSeries, monthNames, binCount], by simp [makeSeries, monthNames, binCount]⟩

/-- **C3.** If the live Prometheus aggregation raises *any* error on the
compute path, `project_usage_api` recovers locally with the synthetic
generator and still returns a fully populated series (bin-count labels and
kWh); no backend error propagates out of the read. -/
theorem live_error_synthetic_fallback (mt : String → ℕ → ℝ)
    (range_key source lv : String) (force : Bool) (spec : PySpec)
    (db : List StoredRow) (now : ℚ) (nowUnix : ℤ) (saveOk : Bool) (err : String)
    (hr : range_key = "day" ∨ range_key = "month" ∨ range_key = "year")
    (hsrc : projectToLabelval source = some lv)
    (hmiss : cacheLookup source range_key (specHash spec) force db now
        ((cacheTtlSeconds range_key).getD 0) = none) :
    (projectUsageApi mt range_key source force spec db now nowUnix (.error err) saveOk).1
        = .ok (makeSeries mt range_key spec.toNumeric).1
              (makeSeries mt range_key spec.toNumeric).2
              (pyRound 3 (makeSeries mt range_key spec.toNumeric).2.sum) ∧
    (makeSeries mt range_key spec.toNumeric).1.length = binCount range_key ∧
    (makeSeries mt range_key spec.toNumeric).2.length = binCount range_key := by
  have hcs : computeSeries mt range_key source spec.toNumeric (.error err)
      = makeSeries mt range_key spec.toNumeric := by
    unfold computeSeries
    rw [hsrc]
    rfl
  have hlen := makeSeries_length mt range_key spec.toNumeric hr
  have h1 := projectUsageApi_miss_fst mt range_key source force spec db now nowUnix
    (.error err) saveOk hr hmiss
  rw [h1]
  unfold computedResponse
  rw [hcs]
  exact ⟨rfl, hlen.1, hlen.2⟩

/-- Witness for C3: a timed-out backend call on the day range for `clf`. -/
theorem live_error_synthetic_fallback_witness :
    (("day" = "day" ∨ "day" = "month" ∨ "day" = "year") ∧
     projectToLabelval "clf" = some "CDAaaS" ∧
     cacheLookup "clf" "day" (specHash defaultTdpSpec) false [] 0
        ((cacheTtlSeconds "day").getD 0) = none) ∧
    ((projectUsageApi (fun _ _ => (0:ℝ)) "day" "clf" false defaultTdpSpec [] 0 0
        (.error "timeout") true).1
        = .ok (makeSeries (fun _ _ => (0:ℝ)) "day" defaultTdpSpec.toNumeric).1
              (makeSeries (fun _ _ => (0:ℝ)) "day" defaultTdpSpec.toNumeric).2
              (pyRound 3 (makeSeries (fun _ _ => (0:ℝ)) "day" defaultTdpSpec.toNumeric).2.sum) ∧
     (makeSeries (fun _ _ => (0:ℝ)) "day" defaultTdpSpec.toNumeric).1.length = binCount "day" ∧
     (makeSeries (fun _ _ => (0:ℝ)) "day" defaultTdpSpec.toNumeric).2.length = binCount "day") := by
  have h1 : ("day" = "day" ∨ "day" = "month" ∨ "day" = "year") := Or.inl rfl
  have h2 : projectToLabelval "clf" = some "CDAaaS" := rfl
  have h3 : cacheLookup "clf" "day" (specHash defaultTdpSpec) false [] 0
      ((cacheTtlSeconds "day").getD 0) = none := cacheLookup_nil ..
  exact ⟨⟨h1, h2, h3⟩,
    live_error_synthetic_fallback (fun _ _ => (0:ℝ)) "day" "clf" "CDAaaS" false
      defaultTdpSpec [] 0 0 true "timeout" h1 h2 h3⟩

/-- **C5 counterexample.** With no previously persisted entry for
`(clf, day, hash(default spec))`, the read operation does not fail: it
silently computes, returns the series with HTTP-200 semantics, and even
persists a fresh row.  No `CacheMiss` failure exists anywhere in the read
path. -/
theorem no_cache_miss_counterexample :
    (projectUsageApi (fun _ _ => (0:ℝ)) "day" "clf" false defaultTdpSpec [] 0 0
        (.ok (["00:00"], [1])) true).1
      = .ok ["00:00"] [(1:ℝ)] (pyRound 3 (List.sum [(1:ℝ)])) ∧
    (projectUsageApi (fun _ _ => (0:ℝ)) "day" "clf" false defaultTdpSpec [] 0 0
        (.ok (["00:00"], [1])) true).2
      = [createdRow "clf" "day" (specHash defaultTdpSpec) defaultTdpSpec
          ["00:00"] [(1:ℝ)] (pyRound 3 (List.sum [(1:ℝ)])) 0 0] := by
  refine ⟨?_, ?_⟩
  · rw [projectUsageApi_miss_fst (fun _ _ => (0:ℝ)) "day" "clf" false defaultTdpSpec []
      0 0 (.ok (["00:00"], [1])) true (Or.inl rfl) (cacheLookup_nil ..)]
    rfl
  · rw [projectUsageApi_miss_snd (fun _ _ => (0:ℝ)) "day" "clf" false defaultTdpSpec []
      0 0 (.ok (["00:00"], [1])) true (Or.inl rfl) (cacheLookup_nil ..),
      if_pos ⟨Or.inl rfl, rfl⟩]
    rfl

/-- **C5 (amended).** The implementation has no cache-only mode: for every
valid range and any key with no previously persisted entry, the read
operation always computes (live or synthetic) and returns that series; it
never fails with a `CacheMiss`-style error. -/
theorem no_cache_only_mode (mt : String → ℕ → ℝ) (range_key source : String)
    (force : Bool) (spec : PySpec) (now : ℚ) (nowUnix : ℤ)
    (live : Except String (List String × List ℝ)) (saveOk : Bool)
    (hr : range_key = "day" ∨ range_key = "month" ∨ range_key = "year") :
    (projectUsageApi mt range_key source force spec [] now nowUnix live saveOk).1
      = computedResponse mt range_key source spec live :=
  projectUsageApi_miss_fst mt range_key source force spec [] now nowUnix live saveOk
    hr (cacheLookup_nil ..)

/-- Witness for C5's amended statement on the day range. -/
theorem no_cache_only_mode_witness :
    ("day" = "day" ∨ "day" = "month" ∨ "day" = "year") ∧
    (projectUsageApi (fun _ _ => (0:ℝ)) "day" "isis" false defaultTdpSpec [] 0 0
        (.error "down") false).1
      = computedResponse (fun _ _ => (0:ℝ)) "day" "isis" defaultTdpSpec (.error "down") :=
  ⟨Or.inl rfl,
    no_cache_only_mode (fun _ _ => (0:ℝ)) "day" "isis" false defaultTdpSpec 0 0
      (.error "down") false (Or.inl rfl)⟩

/-- **C8.** On the compute path for a cacheable source, the freshly computed
series is returned to the caller whether or not the cache write succeeds, and
a successful write appends a brand-new row (the existing rows are untouched);
a failed write leaves the store unchanged. -/
theorem persistence_swallowed (mt : String → ℕ → ℝ) (range_key source : String)
    (force : Bool) (spec : PySpec) (db : List StoredRow) (now : ℚ) (nowUnix : ℤ)
    (live : Except String (List String × List ℝ))
    (hr : range_key = "day" ∨ range_key = "month" ∨ range_key = "year")
    (hs : source = "clf" ∨ source = "isis" ∨ source = "diamond")
    (hmiss : cacheLookup source range_key (specHash spec) force db now
        ((cacheTtlSeconds range_key).getD 0) = none) :
    (projectUsageApi mt range_key source force spec db now nowUnix live true).1
        = computedResponse mt range_key source spec live ∧
    (projectUsageApi mt range_key source force spec db now nowUnix live false).1
        = computedResponse mt range_key source spec live ∧
    (projectUsageApi mt range_key source force spec db now nowUnix live true).2
        = db ++ [createdRow source range_key (specHash spec) spec
            (computeSeries mt range_key source spec.toNumeric live).1
            (computeSeries mt range_key source spec.toNumeric live).2
            (pyRound 3 (computeSeries mt range_key source spec.toNumeric live).2.sum)
            now nowUnix] ∧
    (projectUsageApi mt range_key source force spec db now nowUnix live false).2 = db := by
  refine ⟨projectUsageApi_miss_fst mt range_key source force spec db now nowUnix live true
      hr hmiss,
    projectUsageApi_miss_fst mt range_key source force spec db now nowUnix live false
      hr hmiss, ?_, ?_⟩
  · rw [projectUsageApi_miss_snd mt range_key source force spec db now nowUnix live true
      hr hmiss, if_pos ⟨hs, rfl⟩]
  · rw [projectUsageApi_miss_snd mt range_key source force spec db now nowUnix live false
      hr hmiss, if_neg (by simp)]

/-- Witness for C8: month range for `diamond` over a one-row store. -/
theorem persistence_swallowed_witness :
    (("month" = "day" ∨ "month" = "month" ∨ "month" = "year") ∧
     ("diamond" = "clf" ∨ "diamond" = "isis" ∨ "diamond" = "diamond") ∧
     cacheLookup "diamond" "month" (specHash defaultTdpSpec) true [sampleRow] 0
        ((cacheTtlSeconds "month").getD 0) = none) ∧
    ((projectUsageApi (fun _ _ => (0:ℝ)) "month" "diamond" true defaultTdpSpec [sampleRow]
        0 0 (.ok (["D1"], [2])) true).2
      = [sampleRow] ++ [createdRow "diamond" "month" (specHash defaultTdpSpec) defaultTdpSpec
          (computeSeries (fun _ _ => (0:ℝ)) "month" "diamond" defaultTdpSpec.toNumeric
            (.ok (["D1"], [2]))).1
          (computeSeries (fun _ _ => (0:ℝ)) "month" "diamond" defaultTdpSpec.toNumeric
            (.ok (["D1"], [2]))).2
          (pyRound 3 (computeSeries (fun _ _ => (0:ℝ)) "month" "diamond"
            defaultTdpSpec.toNumeric (.ok (["D1"], [2]))).2.sum) 0 0] ∧
     (projectUsageApi (fun _ _ => (0:ℝ)) "month" "diamond" true defaultTdpSpec [sampleRow]
        0 0 (.ok (["D1"], [2])) false).2 = [sampleRow]) := by
  have h1 : ("month" = "day" ∨ "month" = "month" ∨ "month" = "year") := Or.inr (Or.inl rfl)
  have h2 : ("diamond" = "clf" ∨ "diamond" = "isis" ∨ "diamond" = "diamond") :=
    Or.inr (Or.inr rfl)
  have h3 : cacheLookup "diamond" "month" (specHash defaultTdpSpec) true [sampleRow] 0
      ((cacheTtlSeconds "month").getD 0) = none := by
    unfold cacheLookup
    rw [if_neg (by simp)]
  have h := persistence_swallowed (fun _ _ => (0:ℝ)) "month" "diamond" true defaultTdpSpec
    [sampleRow] 0 0 (.ok (["D1"], [2])) h1 h2 h3
  exact ⟨⟨h1, h2, h3⟩, h.2.2.1, h.2.2.2⟩

end AdaCarbon
